import Mathlib

/-!
Shallow embedding of the pelzsniper platform-detection and mint-transaction
pipeline, and proofs about the claims of its specification.

Conventions of the embedding:
* JavaScript `bigint` values in this code base are non-negative wei amounts,
  supplies and gas quantities; they are modelled as `Nat`.  JS `bigint`
  arithmetic is exact and its division truncates, which on non-negative
  operands is exactly `Nat.div`.
* A contract read that can reject is modelled as an `Option`/`Except` value:
  `none`/`.error` is a rejected promise, `some v`/`.ok v` a fulfilled one.
* `Promise.any` over a set of candidate reads is modelled by giving every
  candidate an optional completion time: `some (t, v)` fulfils with value `v`
  at time `t`, `none` rejects.  The adopted value is the fulfilled candidate
  with the smallest completion time (earlier position breaking ties).
-/

namespace Pelzsniper

/-! ## Data model

`PlatformContractInfo` mirrors the interface of the same name in
`src/core/platforms/PlatformManager.ts`; `ContractInfo` mirrors
`src/core/ViemContractAnalyzer.ts`.  String-typed display fields that no claim
inspects (ABI lists) are omitted. -/

structure PlatformContractInfo where
  address : String
  name : String
  chainId : Nat
  platform : String
  tokenStandard : String
  mintFunction : String
  mintPrice : Nat
  protocolFee : Nat
  creatorFee : Nat
  getTotalValue : Nat → Nat
  isActive : Bool
  totalSupply : Nat
  maxSupply : Nat
  maxPerWallet : Nat

structure ContractInfo where
  address : String
  mintFunction : String
  mintPrice : Nat
  maxSupply : Nat
  currentSupply : Nat
  isActive : Bool
  requiresAllowlist : Bool
  name : String
  chainId : Nat
  maxPerWallet : Nat

/-! ## NFTs2MeModule.analyze (src/core/platforms/NFTs2MeModule.ts)

The reads performed by `analyze` are passed in as already-settled values (each
`.catch` default is applied by the caller-side model below); the function then
assembles the snapshot exactly as the source does, in particular
`getTotalValue = fun quantity => mintFee * quantity + protocolFee`. -/

structure NFTs2MeReads where
  name : Option String
  totalSupply : Option Nat
  maxSupply : Option Nat
  protocolFee : Option Nat
  mintFee : Option Nat
  saleIsActive : Option Bool
  publicMintingEnabled : Option Bool
  maxPerAddress : Option Nat

def nfts2meAnalyze (address : String) (chainId : Nat) (r : NFTs2MeReads) :
    PlatformContractInfo :=
  let mintFee := r.mintFee.getD 0
  let protocolFee := r.protocolFee.getD 0
  let saleIsActive := r.saleIsActive.getD (r.publicMintingEnabled.getD false)
  { address := address
    name := r.name.getD "Unknown"
    chainId := chainId
    platform := "nfts2me"
    tokenStandard := "ERC721"
    mintFunction := "mint(uint256)"
    mintPrice := mintFee
    protocolFee := protocolFee
    creatorFee := 0
    getTotalValue := fun quantity => mintFee * quantity + protocolFee
    isActive := saleIsActive
    totalSupply := r.totalSupply.getD 0
    maxSupply := r.maxSupply.getD 0
    maxPerWallet := r.maxPerAddress.getD 0 }

/-! ## ViemContractAnalyzer.analyze (src/core/ViemContractAnalyzer.ts)

`getPrice` races eight candidate price reads with `Promise.any`; each
candidate is modelled as `Option (Nat × Nat)`: `some (t, v)` fulfils with
value `v` at completion time `t`, `none` rejects. -/

structure PriceReads where
  cost : Option (Nat × Nat)
  price : Option (Nat × Nat)
  mintPrice : Option (Nat × Nat)
  salePrice : Option (Nat × Nat)
  tokenPrice : Option (Nat × Nat)
  mintPriceCaps : Option (Nat × Nat)
  priceCaps : Option (Nat × Nat)
  value : Option (Nat × Nat)

/-- The candidate list in the source order of `getPrice`
(`cost, price, mintPrice, salePrice, tokenPrice, MINT_PRICE, PRICE, value`). -/
def PriceReads.candidates (r : PriceReads) : List (Option (Nat × Nat)) :=
  [r.cost, r.price, r.mintPrice, r.salePrice, r.tokenPrice,
   r.mintPriceCaps, r.priceCaps, r.value]

/-- Model of `Promise.any`: the fulfilled candidate with the smallest
completion time wins (earlier list position breaks ties); `none` when every
candidate rejects. -/
def promiseAny : List (Option (Nat × Nat)) → Option (Nat × Nat)
  | [] => none
  | none :: rest => promiseAny rest
  | some (t, v) :: rest =>
    match promiseAny rest with
    | none => some (t, v)
    | some (t', v') => if t' < t then some (t', v') else some (t, v)

/-- Price resolution of `getPrice`: adopt the racing winner value, with the
default zero when the whole race rejects (all candidates failed). -/
def getPrice (r : PriceReads) : Nat :=
  match promiseAny r.candidates with
  | some (_, v) => v
  | none => 0

/-- The settled per-field reads of `ViemContractAnalyzer.analyze`
(each `safeRead` fallback is applied inside `viemAnalyze`). -/
structure ViemReads where
  name : Option String
  totalSupply : Option Nat
  maxSupply : Option Nat
  priceReads : PriceReads
  paused : Option Bool
  isActive : Option Bool
  saleActive : Option Bool
  maxPerWallet : Option Nat
  walletLimit : Option Nat

def viemAnalyze (address : String) (chainId : Nat) (mintFuncOverride : Option String)
    (r : ViemReads) : ContractInfo :=
  let mintFunction :=
    match mintFuncOverride with
    | some f => f ++ "(uint256)"
    | none => "mint(uint256)"
  let paused := r.paused.getD false
  let isActive := r.isActive.getD true
  let saleActive := r.saleActive.getD true
  let isSalesActive := !paused && isActive && saleActive
  let maxPerWallet := r.maxPerWallet.getD 0
  let walletLimit := r.walletLimit.getD 0
  { address := address
    mintFunction := mintFunction
    mintPrice := getPrice r.priceReads
    maxSupply := r.maxSupply.getD 0
    currentSupply := r.totalSupply.getD 0
    isActive := isSalesActive
    requiresAllowlist := false
    name := r.name.getD "Unknown"
    chainId := chainId
    maxPerWallet := if maxPerWallet > 0 then maxPerWallet else walletLimit }

/-! ## PlatformManager.genericAnalyze (src/core/platforms/PlatformManager.ts)

Wraps the `ViemContractAnalyzer` result; in particular
`getTotalValue = fun quantity => info.mintPrice * quantity`. -/

def genericAnalyze (info : ContractInfo) : PlatformContractInfo :=
  { address := info.address
    name := info.name
    chainId := info.chainId
    platform := "generic"
    tokenStandard := "ERC721"
    mintFunction := info.mintFunction
    mintPrice := info.mintPrice
    protocolFee := 0
    creatorFee := 0
    getTotalValue := fun quantity => info.mintPrice * quantity
    isActive := info.isActive
    totalSupply := info.currentSupply
    maxSupply := info.maxSupply
    maxPerWallet := info.maxPerWallet }

/-! ## ViemMintingEngine.getGasPrice (src/unnamed/part_008)

`estimateFeesPerGas` is modelled as the pair of optional fee fields
(`none` for a missing/falsy field, picking up the `||` defaults). -/

structure FeeEstimate where
  maxFeePerGas : Option Nat
  maxPriorityFeePerGas : Option Nat

structure GasSettings where
  maxFeePerGas : Nat
  maxPriorityFeePerGas : Nat

def getGasPrice (feeData : FeeEstimate) (turbo : Bool) : GasSettings :=
  let priorityMultiplier : Nat := if turbo then 10 else 1
  let basePriority := feeData.maxPriorityFeePerGas.getD 1500000000
  { maxFeePerGas := feeData.maxFeePerGas.getD 50000000000
    maxPriorityFeePerGas := basePriority * priorityMultiplier }

/-! ## ViemMintingEngine (src/unnamed/part_008) -/

structure MintTransaction where
  «to» : String
  data : String
  value : Nat
  gas : Nat
  maxFeePerGas : Nat
  maxPriorityFeePerGas : Nat

/-- The static table of known custom-error selectors of
`prepareTransaction` (`ERROR_SELECTORS`). -/
def ERROR_SELECTORS : List (String × String) :=
  [("0xc288bf8f", "MintNotActive() - The mint is not currently active"),
   ("0x3c55b53b", "SaleNotStarted() - Sale has not started yet"),
   ("0x6f7eac26", "MaxSupplyReached() - No more tokens available"),
   ("0x8e4a23d6", "ExceedsWalletLimit() - You have reached the max per wallet"),
   ("0xb1baf4f3", "InsufficientPayment() - Not enough ETH sent"),
   ("0x21d5efb2", "InvalidMintAmount() - Invalid quantity"),
   ("0x2c5211c6", "InvalidProof() - Allowlist proof invalid"),
   ("0xcd786059", "InvalidPrice() - Incorrect price sent"),
   ("0x646cf558", "Paused() - Contract is paused"),
   ("0xa1d1e8d6", "NotWhitelisted() - Not on allowlist")]

/-- The shape of the error thrown by the simulation `call`:
`rpcData` is `e.cause?.cause?.data` when it is a (truthy) string, the
remaining fields are the fallback message sources in their source order. -/
structure SimError where
  rpcData : Option String
  causeReason : Option String
  causeShortMessage : Option String
  shortMessage : Option String
  details : Option String

/-- Model of the JavaScript slice(0, 10) used to cut the 4-byte selector
(with its 0x prefix) off the revert payload. -/
def take10 (s : String) : String := String.mk (s.data.take 10)

/-- The selector-table step of the revert decoding: the value `reason` holds
after the `try` block around the selector extraction (a falsy or absent
payload leaves the initial "Execution reverted"). -/
def selectorReason (rpcData : Option String) : String :=
  match rpcData with
  | some d =>
    if d ≠ "" then
      let errorSelector := take10 d
      match ERROR_SELECTORS.lookup errorSelector with
      | some msg => msg
      | none => "Custom Error: " ++ errorSelector ++ " (Check contract source for meaning)"
    else "Execution reverted"
  | none => "Execution reverted"

/-- The fallback chain run when the selector step left `reason` untouched. -/
def fallbackChain (e : SimError) : String :=
  match e.causeReason with
  | some r => r
  | none =>
    match e.causeShortMessage with
    | some r => r
    | none =>
      match e.shortMessage with
      | some r => r
      | none => e.details.getD "Execution reverted"

/-- The revert-reason decoding of the simulation `catch` block: selector
table first, then the fallback chain, with `"Execution reverted"` as the
initial value of `reason`. -/
def decodeRevertReason (e : SimError) : String :=
  let fromSelector := selectorReason e.rpcData
  if fromSelector ≠ "Execution reverted" then fromSelector else fallbackChain e

/-- Join of the hint list with the two-character separator "; ". -/
def joinSemicolon : List String → String
  | [] => ""
  | [s] => s
  | s :: rest => s ++ "; " ++ joinSemicolon rest

def priceZeroHint : String := "Price is 0 ETH - verify this is correct or use --price"

def notActiveHint : String := "Contract shows mint may not be active"

/-- The advisory hints appended to a failed simulation's message. -/
def simulationHints (c : ContractInfo) : List String :=
  (if c.mintPrice = 0 then [priceZeroHint] else []) ++
  (if !c.isActive then [notActiveHint] else [])

/-- The parenthesised suffix carrying the advisory hints, empty when there
are none. -/
def contextHint (hints : List String) : String :=
  if hints.length > 0 then " (" ++ joinSemicolon hints ++ ")" else ""

/-- The message of the error thrown when the pre-flight simulation fails. -/
def simulationFailedMessage (e : SimError) (c : ContractInfo) : String :=
  "Simulation Failed: " ++ decodeRevertReason e ++ contextHint (simulationHints c)

/-- Lower-case hexadecimal rendering of the quantity. -/
def hexString (n : Nat) : String := String.mk (Nat.toDigits 16 n)

/-- Left-pad with the zero digit to 64 characters. -/
def padStart64 (s : String) : String :=
  String.mk (List.replicate (64 - s.length) '0') ++ s

/-- Keccak-derived 4-byte selectors of the three signatures in the parsed
mint ABI; `encodeFunctionData` throws for any other function name. -/
def functionSelector : String → Option String
  | "mint" => some "0xa0712d68"
  | "publicMint" => some "0x2db11544"
  | "purchase" => some "0xefef39a1"
  | _ => none

/-- Calldata assembly of `prepareTransaction`: `functionName` is
`mintFunction.split('(')[0]`; when `encodeFunctionData` throws, fall back to
the hand-rolled `mint(uint256)` encoding with selector `0xa0712d68`. -/
def encodeMintData (mintFunction : String) (quantity : Nat) : String :=
  let functionName := (mintFunction.splitOn "(").headD ""
  let quantityHex := padStart64 (hexString quantity)
  match functionSelector functionName with
  | some sel => sel ++ quantityHex
  | none => "0xa0712d68" ++ quantityHex

/-- The chain interactions `prepareTransaction` may perform:
the simulation `call` (`none` = succeeded, `some e` = threw `e`) and
`estimateGas` (`none` = threw). -/
structure PrepareOutcome where
  simulation : Option SimError
  gasEstimate : Option Nat

def prepareTransaction (account : Option String) (contract : ContractInfo)
    (quantity : Nat) (gasSettings : GasSettings) (priceOverride : Option Nat)
    (skipSimulation : Bool) (chain : PrepareOutcome) :
    Except String MintTransaction :=
  match account with
  | none => .error "No wallet connected. Call initBrowserWallet or initBurnerWallet first."
  | some _ =>
    let data := encodeMintData contract.mintFunction quantity
    let pricePerToken := priceOverride.getD contract.mintPrice
    let value := pricePerToken * quantity
    match (if !skipSimulation then chain.simulation else none) with
    | some e => .error (simulationFailedMessage e contract)
    | none =>
      let gasLimit :=
        if skipSimulation then 500000
        else
          match chain.gasEstimate with
          | some est => est * 120 / 100
          | none => 300000
      .ok { «to» := contract.address
            data := data
            value := value
            gas := gasLimit
            maxFeePerGas := gasSettings.maxFeePerGas
            maxPriorityFeePerGas := gasSettings.maxPriorityFeePerGas }

/-- The mutable fields of `ViemMintingEngine` that `execute` consults. -/
structure EngineState where
  walletConnected : Bool
  account : Option String
  preparedTx : Option MintTransaction

/-- State transition of `prepareTransaction`: the `preparedTx` field is
assigned only on the success path. -/
def runPrepare (st : EngineState) (contract : ContractInfo) (quantity : Nat)
    (gasSettings : GasSettings) (priceOverride : Option Nat)
    (skipSimulation : Bool) (chain : PrepareOutcome) :
    EngineState × Except String MintTransaction :=
  match prepareTransaction st.account contract quantity gasSettings priceOverride
      skipSimulation chain with
  | .ok tx => ({ st with preparedTx := some tx }, .ok tx)
  | .error e => (st, .error e)

/-- The argument bundle of one `prepareTransaction` call together with its
chain interactions. -/
structure PrepareCall where
  contract : ContractInfo
  quantity : Nat
  gasSettings : GasSettings
  priceOverride : Option Nat
  skipSimulation : Bool
  chain : PrepareOutcome

def runPrepareCall (st : EngineState) (c : PrepareCall) :
    EngineState × Except String MintTransaction :=
  runPrepare st c.contract c.quantity c.gasSettings c.priceOverride
    c.skipSimulation c.chain

/-- A sequence of `prepareTransaction` calls on the engine. -/
def runPrepares (st : EngineState) : List PrepareCall → EngineState
  | [] => st
  | c :: rest => runPrepares (runPrepareCall st c).1 rest

/-- Model of `execute`: guards first, then `sendTransaction`.  The second
component lists every transaction handed to `sendTransaction` in this call. -/
def execute (st : EngineState) (send : MintTransaction → Except String String) :
    Except String String × List MintTransaction :=
  match st.preparedTx with
  | none => (.error "No transaction prepared", [])
  | some tx =>
    if !st.walletConnected then (.error "No wallet connected", [])
    else
      match st.account with
      | none => (.error "No account set", [])
      | some _ =>
        match send tx with
        | .ok h => (.ok h, [tx])
        | .error e => (.error e, [tx])

/-! ## TerminalController.handleSnipe value computation (src/unnamed/part_009)

With no explicit `--price` flag, a loaded platform snapshot whose
`getTotalValue(qty)` differs from `currentContract.mintPrice * qty` yields
`priceOverride = getTotalValue(qty) / qty` (BigInt division truncates). -/

def snipePriceOverride (priceFlag : Option Nat)
    (platformContract : Option PlatformContractInfo)
    (currentMintPrice : Nat) (qty : Nat) : Option Nat :=
  match priceFlag with
  | some p => some p
  | none =>
    match platformContract with
    | some pc =>
      let platformValue := pc.getTotalValue qty
      if platformValue ≠ currentMintPrice * qty then some (platformValue / qty)
      else none
    | none => none

/-- The snipe command passes the `turbo` flag as `skipSimulation`. -/
def snipeSkipSimulation (turbo : Bool) : Bool := turbo

/-! ## PlatformManager.analyze (src/core/platforms/PlatformManager.ts)

A module is modelled by its behaviour at the analyzed address: the settled
result of `detect` and of `analyze` (`.error` = rejected promise). -/

/-- Model of the JavaScript toLowerCase call on the ASCII platform names. -/
def toLowerCase (s : String) : String := String.mk (s.data.map Char.toLower)

structure ModuleModel where
  name : String
  detect : Except String Bool
  analyze : Except String PlatformContractInfo

/-- The auto-detection loop: the whole per-module `try` block covers both the
`detect` call and the chosen module's `analyze` call, so a rejection from
either is caught and iteration continues. -/
def detectLoop (generic : Except String PlatformContractInfo) :
    List ModuleModel → Except String PlatformContractInfo
  | [] => generic
  | m :: rest =>
    match m.detect with
    | .ok true =>
      match m.analyze with
      | .ok info => .ok info
      | .error _ => detectLoop generic rest
    | _ => detectLoop generic rest

def managerAnalyze (modules : List ModuleModel) (forcePlatform : Option String)
    (generic : Except String PlatformContractInfo) :
    Except String PlatformContractInfo :=
  match forcePlatform with
  | some fp =>
    if fp ≠ "generic" then
      match modules.find? (fun m => toLowerCase m.name == toLowerCase fp) with
      | some forcedModule => forcedModule.analyze
      | none => detectLoop generic modules
    else detectLoop generic modules
  | none => detectLoop generic modules

/-! ## Monitor mode (src/unnamed/part_009, handleMonitor / stopMonitor)

The interval callback is split at its single `await`: `monitorTickBegin` is
the code before the fresh `analyze` is issued (it checks `isMonitoring` and
reports whether the request is issued), `monitorTickComplete` is the
continuation fed the settled result.  `snipesFired` counts triggered
`handleSnipe` calls. -/

structure MonitorState where
  isMonitoring : Bool
  timerActive : Bool
  snipesFired : Nat
  deriving DecidableEq, Repr

/-- Model of `stopMonitor`: clear the interval timer and flip the flag. -/
def stopMonitor (s : MonitorState) : MonitorState :=
  { s with timerActive := false, isMonitoring := false }

/-- Start of the interval callback, which returns early when the monitoring
flag is already cleared; the returned `Bool` is whether the fresh analyze
request is issued. -/
def monitorTickBegin (s : MonitorState) : MonitorState × Bool :=
  if !s.isMonitoring then (stopMonitor s, false) else (s, true)

/-- Continuation after the awaited fresh analyze settles: an error is caught
and logged; an active result stops the monitor and triggers the snipe. -/
def monitorTickComplete (s : MonitorState) (freshResult : Except String Bool) :
    MonitorState :=
  match freshResult with
  | .error _ => s
  | .ok isActive =>
    if isActive then
      let s' := stopMonitor s
      { s' with snipesFired := s'.snipesFired + 1 }
    else s

/-! ## Concrete sample inputs used by the closed instances below -/

def sampleGas : GasSettings :=
  { maxFeePerGas := 30000000000, maxPriorityFeePerGas := 2000000000 }

def sampleChainOk : PrepareOutcome := { simulation := none, gasEstimate := some 100000 }

def sampleFlatFeeReads : NFTs2MeReads :=
  { name := some "Drop", totalSupply := some 0, maxSupply := some 100,
    protocolFee := some 5, mintFee := some 10, saleIsActive := some true,
    publicMintingEnabled := none, maxPerAddress := some 0 }

def sampleFlatFeeInfo : PlatformContractInfo := nfts2meAnalyze "0xdrop" 1 sampleFlatFeeReads

def sampleSnipeContract : ContractInfo :=
  { address := "0xdrop", mintFunction := "mint(uint256)", mintPrice := 10,
    maxSupply := 100, currentSupply := 0, isActive := true,
    requiresAllowlist := false, name := "Drop", chainId := 1, maxPerWallet := 0 }

def sampleGenericInfo : PlatformContractInfo := genericAnalyze sampleSnipeContract

def sampleModuleA : ModuleModel :=
  { name := "NFTs2Me", detect := .ok true, analyze := .ok sampleFlatFeeInfo }

def sampleModuleB : ModuleModel :=
  { name := "MagicEden", detect := .ok true, analyze := .ok sampleGenericInfo }

def sampleBadModule : ModuleModel :=
  { name := "Scatter", detect := .error "read failed", analyze := .ok sampleGenericInfo }

def sampleAllFailPriceReads : PriceReads :=
  { cost := none, price := none, mintPrice := none, salePrice := none,
    tokenPrice := none, mintPriceCaps := none, priceCaps := none, value := none }

def samplePriceReads : PriceReads :=
  { cost := none, price := some (1, 42), mintPrice := some (2, 7), salePrice := none,
    tokenPrice := none, mintPriceCaps := none, priceCaps := none, value := none }

def sampleViemReads : ViemReads :=
  { name := none, totalSupply := none, maxSupply := none,
    priceReads := sampleAllFailPriceReads, paused := none, isActive := none,
    saleActive := none, maxPerWallet := none, walletLimit := none }

def sampleKnownSimError : SimError :=
  { rpcData := some "0xc288bf8f", causeReason := none, causeShortMessage := none,
    shortMessage := none, details := none }

def sampleRevertChain : PrepareOutcome :=
  { simulation := some sampleKnownSimError, gasEstimate := none }

def sampleZeroPriceContract : ContractInfo :=
  { address := "0xdrop", mintFunction := "mint(uint256)", mintPrice := 0,
    maxSupply := 100, currentSupply := 0, isActive := false,
    requiresAllowlist := false, name := "Drop", chainId := 1, maxPerWallet := 0 }

def sampleEngineInit : EngineState :=
  { walletConnected := true, account := some "0xme", preparedTx := none }

def samplePrepareCall : PrepareCall :=
  { contract := sampleSnipeContract, quantity := 1, gasSettings := sampleGas,
    priceOverride := none, skipSimulation := true, chain := sampleChainOk }

def sampleSend : MintTransaction → Except String String := fun _ => .ok "0xhash"

def sampleModuleOff : ModuleModel :=
  { name := "NFTs2Me", detect := .ok false, analyze := .ok sampleFlatFeeInfo }

/-- The transaction prepared by the counterexample snipe of claim C1. -/
def sampleSnipeTx : MintTransaction :=
  { «to» := "0xdrop", data := encodeMintData "mint(uint256)" 2, value := 24,
    gas := 120000, maxFeePerGas := 30000000000,
    maxPriorityFeePerGas := 2000000000 }

/-! ## Theorems -/

/-- C4: for every quantity n ≥ 1, the total-value function of a flat-fee
(NFTs2Me) snapshot returns perTokenMintFee * n + protocolFee, the protocol fee
added exactly once per transaction; and for a no-fee (generic) snapshot it
returns perTokenPrice * n exactly. -/
theorem claim_C4_total_value (address : String) (chainId : Nat)
    (r : NFTs2MeReads) (info : ContractInfo) (n : Nat) (hn : 1 ≤ n) :
    (nfts2meAnalyze address chainId r).getTotalValue n =
      (nfts2meAnalyze address chainId r).mintPrice * n +
        (nfts2meAnalyze address chainId r).protocolFee ∧
    (genericAnalyze info).getTotalValue n = (genericAnalyze info).mintPrice * n :=
  ⟨rfl, rfl⟩

/-- Closed instance of the C4 theorem at quantity 3. -/
theorem claim_C4_total_value_witness :
    1 ≤ 3 ∧
    ((nfts2meAnalyze "0xdrop" 1 sampleFlatFeeReads).getTotalValue 3 =
      (nfts2meAnalyze "0xdrop" 1 sampleFlatFeeReads).mintPrice * 3 +
        (nfts2meAnalyze "0xdrop" 1 sampleFlatFeeReads).protocolFee ∧
    (genericAnalyze sampleSnipeContract).getTotalValue 3 =
      (genericAnalyze sampleSnipeContract).mintPrice * 3) :=
  ⟨by decide,
   claim_C4_total_value "0xdrop" 1 sampleFlatFeeReads sampleSnipeContract 3 (by decide)⟩

/-- C7: the snapshot's isActive equals (NOT paused) AND isActive AND
saleActive, where paused defaults to false and the two active flags default to
true on failed reads; a contract on which none of the three accessors is
readable is reported as active. -/
theorem claim_C7_activity_composition (address : String) (chainId : Nat)
    (o : Option String) (r unreadable : ViemReads)
    (hp : unreadable.paused = none) (ha : unreadable.isActive = none)
    (hs : unreadable.saleActive = none) :
    ((viemAnalyze address chainId o r).isActive =
      (!(r.paused.getD false) && r.isActive.getD true && r.saleActive.getD true)) ∧
    (viemAnalyze address chainId o unreadable).isActive = true := by
  refine ⟨rfl, ?_⟩
  simp [viemAnalyze, hp, ha, hs]

/-- Closed instance of the C7 theorem on a snapshot whose three activity
accessors all fail. -/
theorem claim_C7_activity_composition_witness :
    sampleViemReads.paused = none ∧ sampleViemReads.isActive = none ∧
    sampleViemReads.saleActive = none ∧
    (((viemAnalyze "0xdrop" 1 none sampleViemReads).isActive =
      (!(sampleViemReads.paused.getD false) && sampleViemReads.isActive.getD true &&
        sampleViemReads.saleActive.getD true)) ∧
    (viemAnalyze "0xdrop" 1 none sampleViemReads).isActive = true) :=
  ⟨rfl, rfl, rfl,
   claim_C7_activity_composition "0xdrop" 1 none sampleViemReads sampleViemReads
     rfl rfl rfl⟩

/-- C8: the turbo gas quote multiplies only the priority fee by 10 and leaves
the max fee exactly as in the normal quote; turbo is passed on as
skipSimulation, and a prepare with simulation skipped returns (for any chain
behaviour, so without consulting the simulation or the gas estimator) the
transaction with the fixed conservative 500000 gas ceiling. -/
theorem claim_C8_turbo_quote (feeData : FeeEstimate) (account : String)
    (contract : ContractInfo) (quantity : Nat) (gasSettings : GasSettings)
    (priceOverride : Option Nat) (chain : PrepareOutcome) :
    (getGasPrice feeData true).maxPriorityFeePerGas =
      10 * (getGasPrice feeData false).maxPriorityFeePerGas ∧
    (getGasPrice feeData true).maxFeePerGas = (getGasPrice feeData false).maxFeePerGas ∧
    snipeSkipSimulation true = true ∧
    prepareTransaction (some account) contract quantity gasSettings priceOverride
        (snipeSkipSimulation true) chain =
      .ok { «to» := contract.address,
            data := encodeMintData contract.mintFunction quantity,
            value := priceOverride.getD contract.mintPrice * quantity,
            gas := 500000,
            maxFeePerGas := gasSettings.maxFeePerGas,
            maxPriorityFeePerGas := gasSettings.maxPriorityFeePerGas } := by
  refine ⟨?_, rfl, rfl, rfl⟩
  simp [getGasPrice, Nat.mul_comm]

/-- A winner reported by the race model was one of the candidates. -/
lemma promiseAny_mem (cs : List (Option (Nat × Nat))) (p : Nat × Nat)
    (h : promiseAny cs = some p) : some p ∈ cs := by
  induction cs with
  | nil => simp [promiseAny] at h
  | cons o rest ih =>
    cases o with
    | none =>
      simp only [promiseAny] at h
      exact List.mem_cons_of_mem _ (ih h)
    | some q =>
      obtain ⟨t, v⟩ := q
      simp only [promiseAny] at h
      split at h
      · cases h
        exact List.mem_cons_self _ _
      · rename_i t' v' heq
        split at h
        · cases h
          exact List.mem_cons_of_mem _ (ih heq)
        · cases h
          exact List.mem_cons_self _ _

/-- The race adopts a candidate that fulfils strictly before every other
fulfilled candidate. -/
lemma promiseAny_earliest (t v : Nat) : ∀ (pre post : List (Option (Nat × Nat))),
    (∀ o ∈ pre, ∀ p : Nat × Nat, o = some p → t < p.1) →
    (∀ o ∈ post, ∀ p : Nat × Nat, o = some p → t < p.1) →
    promiseAny (pre ++ some (t, v) :: post) = some (t, v)
  | [], post, _, hpost => by
    simp only [List.nil_append, promiseAny]
    cases hrest : promiseAny post with
    | none => simp
    | some q =>
      obtain ⟨t', v'⟩ := q
      have ht : t < t' := hpost _ (promiseAny_mem post (t', v') hrest) (t', v') rfl
      simp [Nat.not_lt.mpr (Nat.le_of_lt ht)]
  | o :: pre', post, hpre, hpost => by
    have ih := promiseAny_earliest t v pre' post
      (fun o ho => hpre o (List.mem_cons_of_mem _ ho)) hpost
    cases o with
    | none => simpa only [List.cons_append, promiseAny] using ih
    | some q =>
      obtain ⟨t0, v0⟩ := q
      have ht0 : t < t0 := hpre _ (List.mem_cons_self _ _) (t0, v0) rfl
      simp only [List.cons_append, promiseAny, List.append_eq]
      rw [ih]
      simp [ht0]

/-- When every candidate rejects, the race rejects. -/
lemma promiseAny_none (cs : List (Option (Nat × Nat)))
    (h : ∀ o ∈ cs, o = none) : promiseAny cs = none := by
  induction cs with
  | nil => rfl
  | cons o rest ih =>
    have ho := h o (List.mem_cons_self _ _)
    subst ho
    simp only [promiseAny]
    exact ih fun o ho => h o (List.mem_cons_of_mem _ ho)

/-- C6: price resolution races all candidate reads and adopts the value of
whichever completes successfully first, regardless of later candidates'
values; when every candidate fails the resolved price is zero. -/
theorem claim_C6_price_race (r rfail : PriceReads) (t v : Nat)
    (pre post : List (Option (Nat × Nat)))
    (hsplit : r.candidates = pre ++ some (t, v) :: post)
    (hpre : ∀ o ∈ pre, ∀ p : Nat × Nat, o = some p → t < p.1)
    (hpost : ∀ o ∈ post, ∀ p : Nat × Nat, o = some p → t < p.1)
    (hallfail : ∀ o ∈ rfail.candidates, o = none) :
    getPrice r = v ∧ getPrice rfail = 0 := by
  constructor
  · unfold getPrice
    rw [hsplit, promiseAny_earliest t v pre post hpre hpost]
  · unfold getPrice
    rw [promiseAny_none _ hallfail]

/-- Closed instance of the C6 theorem: candidate A rejects, B fulfils first
with 42, C fulfils later with 7; the race resolves to 42.  On the all-reject
reads the price resolves to zero. -/
theorem claim_C6_price_race_witness :
    samplePriceReads.candidates =
      [none] ++ some (1, 42) :: [some (2, 7), none, none, none, none, none] ∧
    getPrice samplePriceReads = 42 ∧ getPrice sampleAllFailPriceReads = 0 := by
  refine ⟨rfl, ?_⟩
  refine claim_C6_price_race samplePriceReads sampleAllFailPriceReads 1 42
    [none] [some (2, 7), none, none, none, none, none] rfl ?_ ?_ (by decide)
  · intro o ho p hp
    fin_cases ho
    simp at hp
  · intro o ho p hp
    fin_cases ho
    · injection hp with hp2
      subst hp2
      decide
    all_goals simp at hp

/-- Modules that never detect true (rejected detect, or detect false, or a
caught rejection of the chosen analyze) are skipped by the detection loop. -/
lemma detectLoop_skip (generic : Except String PlatformContractInfo) :
    ∀ (pre rest : List ModuleModel),
    (∀ mm ∈ pre, ∀ b, mm.detect = .ok b → b = false) →
    detectLoop generic (pre ++ rest) = detectLoop generic rest
  | [], rest, _ => by simp
  | m :: pre', rest, h => by
    have hm := h m (List.mem_cons_self _ _)
    have hrec := detectLoop_skip generic pre' rest
      (fun mm hmm => h mm (List.mem_cons_of_mem _ hmm))
    cases hdet : m.detect with
    | error msg =>
      simp only [List.cons_append, detectLoop, hdet]
      exact hrec
    | ok b =>
      have hb := hm b hdet
      subst hb
      simp only [List.cons_append, detectLoop, hdet]
      exact hrec

/-- C3 (amended): a forced platform name (other than the literal generic) that
matches a registered module by lower-cased name selects that module's analyze
directly, with no reference to any detect; a forced name that matches no
registered module falls back to the ordinary detection loop instead of
failing the request. -/
theorem claim_C3_forced_platform (modules modulesMiss : List ModuleModel)
    (fp fpMiss : String) (m : ModuleModel)
    (generic : Except String PlatformContractInfo)
    (hfp : fp ≠ "generic") (hfpMiss : fpMiss ≠ "generic")
    (hfind : modules.find? (fun mm => toLowerCase mm.name == toLowerCase fp) = some m)
    (hmiss : modulesMiss.find?
      (fun mm => toLowerCase mm.name == toLowerCase fpMiss) = none) :
    managerAnalyze modules (some fp) generic = m.analyze ∧
    managerAnalyze modulesMiss (some fpMiss) generic =
      detectLoop generic modulesMiss := by
  constructor
  · simp only [managerAnalyze]
    rw [if_pos hfp, hfind]
  · simp only [managerAnalyze]
    rw [if_pos hfpMiss, hmiss]

/-- Closed instance refuting C3 as stated: forcing the unregistered name
"opensea" against a registry holding only the NFTs2Me module does not fail
the request — detection proceeds and the module's analyze result is
returned. -/
theorem claim_C3_counterexample :
    managerAnalyze [sampleModuleA] (some "opensea") (.ok sampleGenericInfo) =
      sampleModuleA.analyze ∧
    (managerAnalyze [sampleModuleA] (some "opensea")
        (.ok sampleGenericInfo)).toOption.isSome = true := by
  exact ⟨rfl, rfl⟩

/-- Closed instance of the C3 theorem: a module whose detect is false is still
used when forced by name, and an unmatched forced name falls back to the
detection loop. -/
theorem claim_C3_forced_platform_witness :
    ("nfts2me" : String) ≠ "generic" ∧ ("opensea" : String) ≠ "generic" ∧
    [sampleModuleOff].find? (fun mm => toLowerCase mm.name == toLowerCase "nfts2me") =
      some sampleModuleOff ∧
    [sampleModuleA].find? (fun mm => toLowerCase mm.name == toLowerCase "opensea") = none ∧
    (managerAnalyze [sampleModuleOff] (some "nfts2me") (.ok sampleGenericInfo) =
        sampleModuleOff.analyze ∧
      managerAnalyze [sampleModuleA] (some "opensea") (.ok sampleGenericInfo) =
        detectLoop (.ok sampleGenericInfo) [sampleModuleA]) :=
  ⟨by decide, by decide, rfl, rfl,
   claim_C3_forced_platform [sampleModuleOff] [sampleModuleA] "nfts2me" "opensea"
     sampleModuleOff (.ok sampleGenericInfo) (by decide) (by decide) rfl rfl⟩

/-- C5: with no forced platform the manager runs the detection loop in
registration order; a rejected detect is treated as false and iteration
continues; the first module whose detect is true (all earlier modules not
detecting) yields its analyze result — in particular the earlier-registered
of two both-detecting modules wins; and when no module detects true the
generic fallback produces the snapshot. -/
theorem claim_C5_detection_order (modules pre rest : List ModuleModel)
    (m merr : ModuleModel) (generic : Except String PlatformContractInfo)
    (info : PlatformContractInfo) (msg : String)
    (hpre : ∀ mm ∈ pre, ∀ b, mm.detect = .ok b → b = false)
    (hdet : m.detect = .ok true) (hana : m.analyze = .ok info)
    (hmerr : merr.detect = .error msg)
    (hnone : ∀ mm ∈ modules, ∀ b, mm.detect = .ok b → b = false) :
    (managerAnalyze (pre ++ m :: rest) none generic = .ok info) ∧
    (detectLoop generic (merr :: rest) = detectLoop generic rest) ∧
    (∀ ms : List ModuleModel, managerAnalyze ms none generic = detectLoop generic ms) ∧
    (managerAnalyze modules none generic = generic) := by
  refine ⟨?_, ?_, fun ms => rfl, ?_⟩
  · show detectLoop generic (pre ++ m :: rest) = .ok info
    rw [detectLoop_skip generic pre (m :: rest) hpre]
    simp only [detectLoop, hdet, hana]
  · simp only [detectLoop, hmerr]
  · show detectLoop generic modules = generic
    have := detectLoop_skip generic modules [] hnone
    simpa using this

/-- Closed instance of the C5 theorem: a registry holding a rejecting-detect
module, then two modules that would both detect true, analyzes with the
earlier of the two; a registry holding only non-detecting modules falls back
to the generic snapshot. -/
theorem claim_C5_detection_order_witness :
    sampleModuleA.detect = .ok true ∧ sampleModuleB.detect = .ok true ∧
    sampleBadModule.detect = .error "read failed" ∧
    (managerAnalyze [sampleBadModule, sampleModuleA, sampleModuleB] none
        (.ok sampleGenericInfo) = .ok sampleFlatFeeInfo ∧
      detectLoop (.ok sampleGenericInfo) [sampleBadModule, sampleModuleB] =
        detectLoop (.ok sampleGenericInfo) [sampleModuleB] ∧
      (∀ ms : List ModuleModel, managerAnalyze ms none (.ok sampleGenericInfo) =
        detectLoop (.ok sampleGenericInfo) ms) ∧
      managerAnalyze [sampleBadModule, sampleModuleOff] none (.ok sampleGenericInfo) =
        .ok sampleGenericInfo) := by
  refine ⟨rfl, rfl, rfl, ?_⟩
  refine claim_C5_detection_order [sampleBadModule, sampleModuleOff] [sampleBadModule]
    [sampleModuleB] sampleModuleA sampleBadModule (.ok sampleGenericInfo)
    sampleFlatFeeInfo "read failed" ?_ rfl rfl rfl ?_
  · intro mm hmm b hb
    fin_cases hmm
    simp [sampleBadModule] at hb
  · intro mm hmm b hb
    fin_cases hmm
    · simp [sampleBadModule] at hb
    · simp only [sampleModuleOff] at hb
      injection hb with hb2
      exact hb2.symm

/-- Closed instance refuting C2 as stated: from an active monitor state the
callback proceeds to issue the fresh analyze; the monitor is then explicitly
stopped while that request is in flight (the flag reads false); yet the
completion callback, fed an active result, still fires a snipe. -/
theorem claim_C2_counterexample :
    (monitorTickBegin { isMonitoring := true, timerActive := true, snipesFired := 0 }).2
      = true ∧
    (stopMonitor
      (monitorTickBegin
        { isMonitoring := true, timerActive := true, snipesFired := 0 }).1).isMonitoring
      = false ∧
    (monitorTickComplete
      (stopMonitor
        (monitorTickBegin
          { isMonitoring := true, timerActive := true, snipesFired := 0 }).1)
      (.ok true)).snipesFired = 1 :=
  ⟨rfl, rfl, rfl⟩

/-- C2 (amended): the interval callback checks the active flag only at its
start, before the fresh analyze is issued — a stop that lands before a tick
begins makes that tick return without issuing the check or minting, but the
completion callback performs no re-check: fed an active result it fires a
snipe regardless of the current active flag, so a stop while the request is
in flight does not prevent the mint. -/
theorem claim_C2_stop_semantics (s inflight : MonitorState)
    (hstop : s.isMonitoring = false) :
    monitorTickBegin s = (stopMonitor s, false) ∧
    (monitorTickComplete inflight (.ok true)).snipesFired =
      inflight.snipesFired + 1 ∧
    (monitorTickComplete inflight (.ok false)).snipesFired =
      inflight.snipesFired := by
  refine ⟨?_, rfl, rfl⟩
  simp [monitorTickBegin, hstop]

/-- Closed instance of the amended C2 theorem at a stopped state and an
in-flight state whose owner has already stopped the monitor. -/
theorem claim_C2_stop_semantics_witness :
    ({ isMonitoring := false, timerActive := false, snipesFired := 0 }
      : MonitorState).isMonitoring = false ∧
    (monitorTickBegin { isMonitoring := false, timerActive := false, snipesFired := 0 } =
      (stopMonitor { isMonitoring := false, timerActive := false, snipesFired := 0 },
        false) ∧
    (monitorTickComplete
        { isMonitoring := false, timerActive := false, snipesFired := 0 }
        (.ok true)).snipesFired =
      ({ isMonitoring := false, timerActive := false, snipesFired := 0 }
        : MonitorState).snipesFired + 1 ∧
    (monitorTickComplete
        { isMonitoring := false, timerActive := false, snipesFired := 0 }
        (.ok false)).snipesFired =
      ({ isMonitoring := false, timerActive := false, snipesFired := 0 }
        : MonitorState).snipesFired) :=
  ⟨rfl, claim_C2_stop_semantics
    { isMonitoring := false, timerActive := false, snipesFired := 0 }
    { isMonitoring := false, timerActive := false, snipesFired := 0 } rfl⟩

/-- A successful prepare returns the transaction whose value is the effective
per-token price (override if given, else the snapshot price) times the
quantity. -/
lemma prepareTransaction_ok_value (account : String) (contract : ContractInfo)
    (q : Nat) (gas : GasSettings) (po : Option Nat) (sk : Bool)
    (chain : PrepareOutcome) (tx : MintTransaction)
    (h : prepareTransaction (some account) contract q gas po sk chain = .ok tx) :
    tx.value = po.getD contract.mintPrice * q := by
  simp only [prepareTransaction] at h
  split at h
  · exact absurd h (by simp)
  · cases h
    rfl

/-- C1 (amended): prepare computes value = (priceOverride if given, else the
snapshot per-token price) times the quantity.  The snipe pipeline forwards a
fee-bearing total by passing priceOverride = totalValueFn(q) / q with
truncating integer division, so when totalValueFn(q) differs from the flat
per-token product the prepared value is (totalValueFn(q) / q) * q, which
equals totalValueFn(q) exactly if and only if q divides totalValueFn(q). -/
theorem claim_C1_snipe_value (account : String) (contract : ContractInfo)
    (pc : PlatformContractInfo) (q : Nat) (hq : 1 ≤ q) (gas : GasSettings)
    (chain : PrepareOutcome) (sk : Bool) :
    (∀ p tx, prepareTransaction (some account) contract q gas
        (snipePriceOverride (some p) (some pc) contract.mintPrice q) sk chain
        = .ok tx → tx.value = p * q) ∧
    (pc.getTotalValue q = contract.mintPrice * q →
      ∀ tx, prepareTransaction (some account) contract q gas
        (snipePriceOverride none (some pc) contract.mintPrice q) sk chain
        = .ok tx → tx.value = contract.mintPrice * q) ∧
    (pc.getTotalValue q ≠ contract.mintPrice * q →
      ∀ tx, prepareTransaction (some account) contract q gas
        (snipePriceOverride none (some pc) contract.mintPrice q) sk chain
        = .ok tx →
      tx.value = pc.getTotalValue q / q * q ∧
        (tx.value = pc.getTotalValue q ↔ q ∣ pc.getTotalValue q)) := by
  refine ⟨?_, ?_, ?_⟩
  · intro p tx h
    have hv := prepareTransaction_ok_value account contract q gas _ sk chain tx h
    simpa [snipePriceOverride] using hv
  · intro heq tx h
    have hv := prepareTransaction_ok_value account contract q gas _ sk chain tx h
    simpa [snipePriceOverride, heq] using hv
  · intro hne tx h
    have hv := prepareTransaction_ok_value account contract q gas _ sk chain tx h
    have hov : snipePriceOverride none (some pc) contract.mintPrice q =
        some (pc.getTotalValue q / q) := by
      simp [snipePriceOverride, hne]
    rw [hov] at hv
    refine ⟨hv, ?_⟩
    rw [hv]
    constructor
    · intro hdvd
      exact hdvd ▸ dvd_mul_left q (pc.getTotalValue q / q)
    · intro hdvd
      exact Nat.div_mul_cancel hdvd

/-- Closed instance refuting the exactness part of C1: a flat-fee snapshot
with per-token fee 10 wei and fixed protocol fee 5 wei at quantity 2 has
totalValueFn(2) = 25, yet the prepared transaction carries value 24. -/
theorem claim_C1_counterexample :
    ((prepareTransaction (some "0xme") sampleSnipeContract 2 sampleGas
        (snipePriceOverride none (some sampleFlatFeeInfo)
          sampleSnipeContract.mintPrice 2)
        (snipeSkipSimulation false) sampleChainOk).toOption.map
      MintTransaction.value = some 24) ∧
    sampleFlatFeeInfo.getTotalValue 2 = 25 ∧ (24 : Nat) ≠ 25 :=
  ⟨rfl, rfl, by decide⟩

/-- Closed instance of the amended C1 theorem on the same flat-fee snapshot. -/
theorem claim_C1_snipe_value_witness :
    1 ≤ (2 : Nat) ∧
    sampleFlatFeeInfo.getTotalValue 2 ≠ sampleSnipeContract.mintPrice * 2 ∧
    (sampleSnipeTx.value = sampleFlatFeeInfo.getTotalValue 2 / 2 * 2 ∧
      (sampleSnipeTx.value = sampleFlatFeeInfo.getTotalValue 2 ↔
        2 ∣ sampleFlatFeeInfo.getTotalValue 2)) :=
  ⟨by decide, by decide,
   (claim_C1_snipe_value "0xme" sampleSnipeContract sampleFlatFeeInfo 2 (by decide)
       sampleGas sampleChainOk false).2.2 (by decide) sampleSnipeTx rfl⟩

/-- A decoded custom-error string is never equal to the untouched initial
reason, so the selector branch always wins the later fallback gate. -/
lemma customError_ne (sel : String) :
    "Custom Error: " ++ sel ++ " (Check contract source for meaning)" ≠
      "Execution reverted" := by
  intro h
  have h2 := congrArg String.length h
  rw [String.length_append, String.length_append] at h2
  have e1 : ("Custom Error: " : String).length = 14 := rfl
  have e2 : (" (Check contract source for meaning)" : String).length = 36 := rfl
  have e3 : ("Execution reverted" : String).length = 18 := rfl
  omega

/-- Decoding of a payload whose selector is found in the table. -/
lemma decodeRevertReason_known (e : SimError) (d msg : String)
    (hd : e.rpcData = some d) (hne : d ≠ "")
    (hlookup : ERROR_SELECTORS.lookup (take10 d) = some msg)
    (hmsg : msg ≠ "Execution reverted") :
    decodeRevertReason e = msg := by
  have hsel : selectorReason e.rpcData = msg := by
    rw [hd]
    simp only [selectorReason, hlookup]
    rw [if_pos hne]
  simp only [decodeRevertReason, hsel]
  exact if_pos hmsg

/-- C9: a reverting pre-flight simulation aborts prepare with the decoded
message; a revert payload whose leading 4 bytes are in the static selector
table decodes to that selector's exact documented message; an unrecognized
prefix yields a message containing the literal hex prefix; and the
zero-price and not-active advisory hints are appended to the failure
message. -/
theorem claim_C9_revert_decoding (account : String) (contract : ContractInfo)
    (q : Nat) (gas : GasSettings) (po : Option Nat) (chain : PrepareOutcome)
    (e : SimError) (d : String)
    (hsim : chain.simulation = some e) (hd : e.rpcData = some d) (hne : d ≠ "") :
    (prepareTransaction (some account) contract q gas po false chain =
      .error (simulationFailedMessage e contract)) ∧
    (∀ msg, (take10 d, msg) ∈ ERROR_SELECTORS → decodeRevertReason e = msg) ∧
    (ERROR_SELECTORS.lookup (take10 d) = none →
      ∃ pre post, decodeRevertReason e = pre ++ take10 d ++ post) ∧
    (contract.mintPrice = 0 →
      ∃ pre post, simulationFailedMessage e contract =
        pre ++ priceZeroHint ++ post) ∧
    (contract.isActive = false →
      ∃ pre post, simulationFailedMessage e contract =
        pre ++ notActiveHint ++ post) := by
  refine ⟨by simp [prepareTransaction, hsim], ?_, ?_, ?_, ?_⟩
  · intro msg hmem
    simp only [ERROR_SELECTORS, List.mem_cons, List.not_mem_nil, or_false,
      Prod.mk.injEq] at hmem
    rcases hmem with ⟨hkey, hval⟩|⟨hkey, hval⟩|⟨hkey, hval⟩|⟨hkey, hval⟩|
      ⟨hkey, hval⟩|⟨hkey, hval⟩|⟨hkey, hval⟩|⟨hkey, hval⟩|⟨hkey, hval⟩|⟨hkey, hval⟩ <;>
      subst hval <;>
      exact decodeRevertReason_known e d _ hd hne (by rw [hkey]; decide) (by decide)
  · intro hlookup
    refine ⟨"Custom Error: ", " (Check contract source for meaning)", ?_⟩
    have hsel : selectorReason e.rpcData =
        "Custom Error: " ++ take10 d ++ " (Check contract source for meaning)" := by
      rw [hd]
      simp only [selectorReason, hlookup]
      rw [if_pos hne]
    simp only [decodeRevertReason, hsel]
    exact if_pos (customError_ne (take10 d))
  · intro hzero
    cases hact : contract.isActive with
    | true =>
      have hh : simulationHints contract = [priceZeroHint] := by
        simp [simulationHints, hzero, hact]
      refine ⟨"Simulation Failed: " ++ decodeRevertReason e ++ " (", ")", ?_⟩
      simp [simulationFailedMessage, hh, contextHint, joinSemicolon,
        String.append_assoc]
    | false =>
      have hh : simulationHints contract = [priceZeroHint, notActiveHint] := by
        simp [simulationHints, hzero, hact]
      refine ⟨"Simulation Failed: " ++ decodeRevertReason e ++ " (",
        "; " ++ notActiveHint ++ ")", ?_⟩
      simp [simulationFailedMessage, hh, contextHint, joinSemicolon,
        String.append_assoc]
  · intro hact
    by_cases hzero : contract.mintPrice = 0
    · have hh : simulationHints contract = [priceZeroHint, notActiveHint] := by
        simp [simulationHints, hzero, hact]
      refine ⟨"Simulation Failed: " ++ decodeRevertReason e ++ " (" ++
        priceZeroHint ++ "; ", ")", ?_⟩
      simp [simulationFailedMessage, hh, contextHint, joinSemicolon,
        String.append_assoc]
    · have hh : simulationHints contract = [notActiveHint] := by
        simp [simulationHints, hzero, hact]
      refine ⟨"Simulation Failed: " ++ decodeRevertReason e ++ " (", ")", ?_⟩
      simp [simulationFailedMessage, hh, contextHint, joinSemicolon,
        String.append_assoc]

/-- Closed instance of the C9 theorem: a revert whose payload leads with the
known MintNotActive selector, simulated for a zero-price inactive snapshot,
aborts prepare with the documented message and both advisory hints. -/
theorem claim_C9_revert_decoding_witness :
    sampleRevertChain.simulation = some sampleKnownSimError ∧
    sampleKnownSimError.rpcData = some "0xc288bf8f" ∧
    ("0xc288bf8f" : String) ≠ "" ∧
    prepareTransaction (some "0xme") sampleZeroPriceContract 1 sampleGas none
        false sampleRevertChain =
      .error (simulationFailedMessage sampleKnownSimError sampleZeroPriceContract) ∧
    decodeRevertReason sampleKnownSimError =
      "MintNotActive() - The mint is not currently active" ∧
    (∃ pre post, simulationFailedMessage sampleKnownSimError sampleZeroPriceContract =
      pre ++ priceZeroHint ++ post) ∧
    (∃ pre post, simulationFailedMessage sampleKnownSimError sampleZeroPriceContract =
      pre ++ notActiveHint ++ post) := by
  have h := claim_C9_revert_decoding "0xme" sampleZeroPriceContract 1 sampleGas none
    sampleRevertChain sampleKnownSimError "0xc288bf8f" rfl rfl (by decide)
  exact ⟨rfl, rfl, by decide, h.1,
    h.2.1 "MintNotActive() - The mint is not currently active" (by decide),
    h.2.2.2.1 rfl, h.2.2.2.2 rfl⟩

/-- Provenance of the stored prepared transaction: after a sequence of
prepare calls, a stored transaction came either from the initial state or
from some call whose prepare succeeded with exactly that transaction. -/
lemma runPrepares_preparedTx : ∀ (calls : List PrepareCall) (st : EngineState)
    (tx : MintTransaction), (runPrepares st calls).preparedTx = some tx →
    st.preparedTx = some tx ∨
      ∃ c ∈ calls, ∃ acct, prepareTransaction (some acct) c.contract c.quantity
        c.gasSettings c.priceOverride c.skipSimulation c.chain = .ok tx
  | [], _, _, h => .inl h
  | c :: rest, st, tx, h => by
    rcases runPrepares_preparedTx rest (runPrepareCall st c).1 tx h with
      h1 | ⟨c', hc', acct, hp⟩
    · cases hacct : st.account with
      | none =>
        left
        have hstep : (runPrepareCall st c).1 = st := by
          simp [runPrepareCall, runPrepare, prepareTransaction, hacct]
        rwa [hstep] at h1
      | some acct =>
        cases hp : prepareTransaction (some acct) c.contract c.quantity
            c.gasSettings c.priceOverride c.skipSimulation c.chain with
        | ok tx' =>
          have hstep : (runPrepareCall st c).1 = { st with preparedTx := some tx' } := by
            simp [runPrepareCall, runPrepare, hacct, hp]
          rw [hstep] at h1
          have htx : tx' = tx := by simpa using h1
          subst htx
          exact .inr ⟨c, List.mem_cons_self _ _, acct, hp⟩
        | error msg =>
          left
          have hstep : (runPrepareCall st c).1 = st := by
            simp [runPrepareCall, runPrepare, hacct, hp]
          rwa [hstep] at h1
    · exact .inr ⟨c', List.mem_cons_of_mem _ hc', acct, hp⟩

/-- C10: execute throws (and hands nothing to sendTransaction) when no
transaction is stored, or no wallet client is connected, or no account is
set; any transaction it does hand to sendTransaction was stored by an
earlier prepareTransaction call that completed successfully, under a
connected wallet and account. -/
theorem claim_C10_execute_guards (st st0 : EngineState)
    (send : MintTransaction → Except String String) (calls : List PrepareCall)
    (hrun : st = runPrepares st0 calls) (hinit : st0.preparedTx = none) :
    (st.preparedTx = none → execute st send = (.error "No transaction prepared", [])) ∧
    (st.walletConnected = false → ∃ msg, execute st send = (.error msg, [])) ∧
    (st.account = none → ∃ msg, execute st send = (.error msg, [])) ∧
    (∀ tx ∈ (execute st send).2,
      st.walletConnected = true ∧ st.account.isSome = true ∧
      ∃ c ∈ calls, ∃ acct, prepareTransaction (some acct) c.contract c.quantity
        c.gasSettings c.priceOverride c.skipSimulation c.chain = .ok tx) := by
  refine ⟨?_, ?_, ?_, ?_⟩
  · intro h
    simp [execute, h]
  · intro h
    cases hpt : st.preparedTx with
    | none => exact ⟨"No transaction prepared", by simp [execute, hpt]⟩
    | some tx => exact ⟨"No wallet connected", by simp [execute, hpt, h]⟩
  · intro h
    cases hpt : st.preparedTx with
    | none => exact ⟨"No transaction prepared", by simp [execute, hpt]⟩
    | some tx =>
      cases hw : st.walletConnected with
      | false => exact ⟨"No wallet connected", by simp [execute, hpt, hw]⟩
      | true => exact ⟨"No account set", by simp [execute, hpt, hw, h]⟩
  · intro tx htx
    cases hpt : st.preparedTx with
    | none => simp [execute, hpt] at htx
    | some tx' =>
      cases hw : st.walletConnected with
      | false => simp [execute, hpt, hw] at htx
      | true =>
        cases hacct : st.account with
        | none => simp [execute, hpt, hw, hacct] at htx
        | some acct =>
          have hmem : tx = tx' := by
            cases hsend : send tx' with
            | ok hsh => simpa [execute, hpt, hw, hacct, hsend] using htx
            | error msg => simpa [execute, hpt, hw, hacct, hsend] using htx
          subst hmem
          refine ⟨rfl, by simp [hacct], ?_⟩
          have hprov := runPrepares_preparedTx calls st0 tx (by rw [← hrun, hpt])
          rcases hprov with h0 | hsome
          · rw [hinit] at h0
            cases h0
          · exact hsome

/-- Closed instance of the C10 theorem: from a fresh engine, one successful
prepare then execute submits exactly the prepared transaction; that
transaction is certified to come from the successful prepare call. -/
theorem claim_C10_execute_guards_witness :
    sampleEngineInit.preparedTx = none ∧
    (∀ tx ∈ (execute (runPrepares sampleEngineInit [samplePrepareCall]) sampleSend).2,
      ∃ c ∈ [samplePrepareCall], ∃ acct, prepareTransaction (some acct) c.contract
        c.quantity c.gasSettings c.priceOverride c.skipSimulation c.chain = .ok tx) :=
  ⟨rfl, fun tx htx =>
    ((claim_C10_execute_guards (runPrepares sampleEngineInit [samplePrepareCall])
      sampleEngineInit sampleSend [samplePrepareCall] rfl rfl).2.2.2 tx htx).2.2⟩

end Pelzsniper
